import Mathlib

/-!
Verification of the meal_max battle engine against its specification.

The battle engine (`BattleModel` in `battle_model.py`) and the record
store (`kitchen_model.py`) are embedded shallowly: the combatant stage
is a `List Meal`, the random draw is an explicit rational argument, and
side effects (the calls to `update_meal_stats`) are returned as an
explicit call log.  Prices, scores and the random draw are modelled as
exact rationals.
-/

namespace MealMax

/-- The three-value difficulty enumeration of a meal record
(`difficulty TEXT CHECK(difficulty IN ('HIGH', 'MED', 'LOW'))`). -/
inductive Difficulty
  | LOW
  | MED
  | HIGH
deriving DecidableEq, Repr

/-- A meal record: identifying key, display name, category label
(cuisine), positive price, difficulty tier. -/
structure Meal where
  id : Int
  meal : String
  cuisine : String
  price : ℚ
  difficulty : Difficulty
deriving DecidableEq, Repr

/-- Modelled from the spec: the fixed tier penalty of the battle score
(`battle_model.py` is not in the sources; only its tests are).  Per the
spec, the penalty is 1 for the lowest-penalty tier, 2 for the middle
tier, 3 for the highest-penalty tier; with the named tiers of the code,
HIGH has the lowest penalty and LOW the highest. -/
def tier_penalty : Difficulty → ℚ
  | .HIGH => 1
  | .MED => 2
  | .LOW => 3

/-- Modelled from the spec: `BattleModel.get_battle_score`
(`battle_model.py` is not in the sources; only its tests are).
`score(R) = price(R) * length(category_label(R)) − tier_penalty(difficulty(R))`. -/
def get_battle_score (m : Meal) : ℚ :=
  m.price * (m.cuisine.length : ℚ) - tier_penalty m.difficulty

/-- Modelled from the spec: `BattleModel.prep_combatant`
(`battle_model.py` is not in the sources; only its tests are).
Appends the record to the stage; fails with a `CapacityError`
(`ValueError`, message pinned by the repository's tests) if the stage
already holds 2 records, leaving the stage unchanged.  The result pairs
the outcome with the stage after the call. -/
def prep_combatant (combatants : List Meal) (m : Meal) :
    Except String Unit × List Meal :=
  if 2 ≤ combatants.length then
    (.error "Combatant list is full, cannot add more combatants.", combatants)
  else
    (.ok (), combatants ++ [m])

/-- Modelled from the spec: `BattleModel.get_combatants`
(`battle_model.py` is not in the sources; only its tests are).
Returns the current ordered sequence of staged records. -/
def get_combatants (combatants : List Meal) : List Meal :=
  combatants

/-- Modelled from the spec: `BattleModel.clear_combatants`
(`battle_model.py` is not in the sources; only its tests are).
Empties the stage unconditionally. -/
def clear_combatants (_combatants : List Meal) : List Meal :=
  []

/-- Modelled from the spec: the winner selection of
`BattleModel.battle`.  The record with the strictly higher score is the
favorite and wins when `delta > r`; otherwise the other record wins.
On equal scores no record is favorite, the `delta > r` branch is never
taken for `r ≥ 0` (since `delta = 0`), and the second-staged record
wins by the fixed tie convention. -/
def battle_winner (c1 c2 : Meal) (r : ℚ) : Meal × Meal :=
  if |get_battle_score c1 - get_battle_score c2| / 100 > r then
    if get_battle_score c2 > get_battle_score c1 then (c2, c1) else (c1, c2)
  else
    if get_battle_score c2 > get_battle_score c1 then (c1, c2) else (c2, c1)

/-- Modelled from the spec: `BattleModel.battle`
(`battle_model.py` is not in the sources; only its tests are).
With fewer than two staged records it fails with
`InsufficientCombatantsError` (`ValueError`, message pinned by the
repository's tests) before any scoring, draw or side effect; otherwise
it scores both combatants, compares `delta = |s1 − s2| / 100`
(unclamped) with the random draw `r`, reports `"win"` for the winner's
key and `"loss"` for the loser's key, removes the loser from the stage
and returns the winner's display name.  The result triples the outcome
with the stage after the call and the log of `update_stats` calls. -/
def battle (combatants : List Meal) (r : ℚ) :
    Except String String × List Meal × List (Int × String) :=
  match combatants with
  | c1 :: c2 :: _ =>
    (.ok (battle_winner c1 c2 r).1.meal,
      combatants.erase (battle_winner c1 c2 r).2,
      [((battle_winner c1 c2 r).1.id, "win"),
        ((battle_winner c1 c2 r).2.id, "loss")])
  | _ =>
    (.error "Two combatants must be prepped for a battle.", combatants, [])

/-- The stage states reachable from the initial empty stage through the
battle engine's operations (`prep_combatant`, `battle`,
`clear_combatants`), in both their success and failure outcomes. -/
inductive Reachable : List Meal → Prop
  | init : Reachable []
  | prep (st : List Meal) (m : Meal) (h : Reachable st) :
      Reachable (prep_combatant st m).2
  | fight (st : List Meal) (r : ℚ) (h : Reachable st) :
      Reachable (battle st r).2.1
  | clear (st : List Meal) (h : Reachable st) :
      Reachable (clear_combatants st)

/-- A row of the `meals` table: key, display name, category label,
price, difficulty tier, battle and win counters, soft-deletion flag
(schema pinned by the repository's tests: `battles INTEGER DEFAULT 0,
wins INTEGER DEFAULT 0, deleted BOOLEAN DEFAULT FALSE`, no losses
column). -/
structure MealRow where
  id : Int
  meal : String
  cuisine : String
  price : ℚ
  difficulty : Difficulty
  battles : Nat
  wins : Nat
  deleted : Bool
deriving DecidableEq, Repr

/-- Modelled from the spec: `update_meal_stats` of `kitchen_model.py`
(not in the sources; only its tests are).  It first looks up the row
with the given key (`SELECT deleted FROM meals WHERE id = ?`): if none
exists it fails with `NotFoundError` ("Meal with ID ... not found"); if
the row is soft-deleted it fails with "Meal with ID ... has been
deleted"; otherwise outcome `"win"` increments the row's battles and
wins counters by 1 and outcome `"loss"` increments only the battles
counter (SQL pinned by the repository's tests).  The result pairs the
outcome with the table after the call. -/
def update_meal_stats (db : List MealRow) (meal_id : Int) (outcome : String) :
    Except String Unit × List MealRow :=
  match db.find? (fun row => row.id == meal_id) with
  | none =>
    (.error ("Meal with ID " ++ toString meal_id ++ " not found"), db)
  | some row =>
    if row.deleted then
      (.error ("Meal with ID " ++ toString meal_id ++ " has been deleted"), db)
    else if outcome == "win" then
      (.ok (), db.map (fun r =>
        if r.id == meal_id then
          { r with battles := r.battles + 1, wins := r.wins + 1 }
        else r))
    else if outcome == "loss" then
      (.ok (), db.map (fun r =>
        if r.id == meal_id then { r with battles := r.battles + 1 } else r))
    else
      (.error ("Invalid result: " ++ outcome ++ ". Expected 'win' or 'loss'."),
        db)

/-! Sample records, taken from the fixtures of
`tests/test_battle_model.py`. -/

/-- The `sample_meal1` fixture of the battle tests. -/
def sample_meal1 : Meal :=
  { id := 1, meal := "Meal 1", cuisine := "Italian", price := 20,
    difficulty := .HIGH }

/-- The `sample_meal2` fixture of the battle tests. -/
def sample_meal2 : Meal :=
  { id := 2, meal := "Meal 2", cuisine := "Mexican", price := 15,
    difficulty := .LOW }

/-- The `sample_meal3` fixture of the battle tests. -/
def sample_meal3 : Meal :=
  { id := 3, meal := "Meal 3", cuisine := "Saudi", price := 18,
    difficulty := .MED }

/-- A soft-deleted row of the `meals` table, used as a concrete
record-store state. -/
def deleted_row : MealRow :=
  { id := 1, meal := "Spaghetti", cuisine := "Italian", price := 10,
    difficulty := .LOW, battles := 5, wins := 2, deleted := true }

/-- An existing, non-deleted row of the `meals` table, used as a
concrete record-store state. -/
def live_row : MealRow :=
  { id := 1, meal := "Spaghetti", cuisine := "Italian", price := 10,
    difficulty := .LOW, battles := 5, wins := 2, deleted := false }

/-! Helper lemmas shared by the claim theorems. -/

/-- `battle_winner` returns the two combatants in one of the two
orders. -/
lemma battle_winner_eq_or (c1 c2 : Meal) (r : ℚ) :
    battle_winner c1 c2 r = (c1, c2) ∨ battle_winner c1 c2 r = (c2, c1) := by
  unfold battle_winner
  by_cases h1 : |get_battle_score c1 - get_battle_score c2| / 100 > r <;>
    by_cases h2 : get_battle_score c2 > get_battle_score c1 <;>
      simp [h1, h2]

/-- Erasing the first element of a two-element list. -/
lemma erase_pair_fst (c1 c2 : Meal) : ([c1, c2] : List Meal).erase c1 = [c2] := by
  simp [List.erase_cons]

/-- Erasing the second element of a two-element list leaves a list
equal to the singleton of the first. -/
lemma erase_pair_snd (c1 c2 : Meal) :
    ([c1, c2] : List Meal).erase c2 = [c1] := by
  by_cases h : c1 = c2
  · subst h; simp [List.erase_cons]
  · simp [List.erase_cons, h]

/-! The claim theorems. -/

/-- C1: for every record with a positive price, a category label and a
difficulty tier, `get_battle_score` equals price times category-label
length minus the fixed tier penalty, with penalty(HIGH) = 1,
penalty(MED) = 2, penalty(LOW) = 3. -/
theorem get_battle_score_spec (m : Meal) (h : 0 < m.price) :
    get_battle_score m =
      m.price * (m.cuisine.length : ℚ) -
        (match m.difficulty with
          | Difficulty.HIGH => 1
          | Difficulty.MED => 2
          | Difficulty.LOW => 3) := by
  rcases m with ⟨id, meal, cuisine, price, d⟩
  cases d <;> rfl

/-- Witness for C1 at the `sample_meal1` fixture. -/
theorem get_battle_score_spec_witness :
    (0 : ℚ) < sample_meal1.price ∧
    get_battle_score sample_meal1 =
      sample_meal1.price * (sample_meal1.cuisine.length : ℚ) -
        (match sample_meal1.difficulty with
          | Difficulty.HIGH => 1
          | Difficulty.MED => 2
          | Difficulty.LOW => 3) :=
  ⟨by norm_num [sample_meal1],
    get_battle_score_spec sample_meal1 (by norm_num [sample_meal1])⟩

/-- C2: for staged records with distinct scores and a draw
`r ∈ [0, 1)`, the battle returns the winner selected by
`battle_winner`, the strictly higher-scoring record wins exactly when
`delta = |s1 − s2| / 100 > r` (delta unclamped), and the lower-scoring
record wins when `delta ≤ r`. -/
theorem battle_decision_rule (c1 c2 : Meal) (r : ℚ) (_h0 : 0 ≤ r) (_h1 : r < 1)
    (hne : get_battle_score c1 ≠ get_battle_score c2) :
    (battle [c1, c2] r).1 = .ok (battle_winner c1 c2 r).1.meal ∧
    ((battle_winner c1 c2 r).1 =
        (if get_battle_score c2 > get_battle_score c1 then c2 else c1) ↔
      |get_battle_score c1 - get_battle_score c2| / 100 > r) ∧
    (|get_battle_score c1 - get_battle_score c2| / 100 ≤ r →
      (battle_winner c1 c2 r).1 =
        (if get_battle_score c2 > get_battle_score c1 then c1 else c2)) := by
  have hc : c1 ≠ c2 := fun h => hne (by rw [h])
  refine ⟨rfl, ?_, ?_⟩
  · by_cases hd : |get_battle_score c1 - get_battle_score c2| / 100 > r <;>
      by_cases h2 : get_battle_score c2 > get_battle_score c1 <;>
        simp [battle_winner, hd, h2, hc, hc.symm]
  · intro hle
    have hd : ¬ |get_battle_score c1 - get_battle_score c2| / 100 > r :=
      not_lt.mpr hle
    by_cases h2 : get_battle_score c2 > get_battle_score c1 <;>
      simp [battle_winner, hd, h2]

/-- Witness for C2 at the sample fixtures with draw `r = 1/10`. -/
theorem battle_decision_rule_witness :
    (battle [sample_meal1, sample_meal2] (1/10)).1 =
      .ok (battle_winner sample_meal1 sample_meal2 (1/10)).1.meal ∧
    ((battle_winner sample_meal1 sample_meal2 (1/10)).1 =
        (if get_battle_score sample_meal2 > get_battle_score sample_meal1
          then sample_meal2 else sample_meal1) ↔
      |get_battle_score sample_meal1 - get_battle_score sample_meal2| / 100 >
        (1/10)) ∧
    (|get_battle_score sample_meal1 - get_battle_score sample_meal2| / 100 ≤
        (1/10) →
      (battle_winner sample_meal1 sample_meal2 (1/10)).1 =
        (if get_battle_score sample_meal2 > get_battle_score sample_meal1
          then sample_meal1 else sample_meal2)) :=
  battle_decision_rule sample_meal1 sample_meal2 (1/10) (by norm_num)
    (by norm_num)
    (by
      have h1 : ("Italian".length) = 7 := rfl
      have h2 : ("Mexican".length) = 7 := rfl
      simp [get_battle_score, sample_meal1, sample_meal2, tier_penalty, h1, h2]
      norm_num)

/-- C3: with exactly two staged combatants, every battle succeeds and
returns the winner's display name, leaves the stage holding exactly the
winner, and logs exactly one `update_stats` call with the winner's key
and outcome `"win"` and one with the loser's key and outcome `"loss"`,
where winner and loser are the two staged records in one of the two
orders. -/
theorem battle_success_effects (c1 c2 : Meal) (r : ℚ) :
    ∃ w l : Meal,
      ((w = c1 ∧ l = c2) ∨ (w = c2 ∧ l = c1)) ∧
      battle [c1, c2] r =
        (.ok w.meal, [w], [(w.id, "win"), (l.id, "loss")]) := by
  rcases battle_winner_eq_or c1 c2 r with h | h
  · exact ⟨c1, c2, Or.inl ⟨rfl, rfl⟩, by simp [battle, h, erase_pair_snd]⟩
  · exact ⟨c2, c1, Or.inr ⟨rfl, rfl⟩, by simp [battle, h, erase_pair_fst]⟩

/-- C4: with fewer than two staged combatants, the battle fails with
the insufficient-combatants `ValueError` and has no effects: the stage
is unchanged and no `update_stats` call is logged (so no score, draw or
stats update happened). -/
theorem battle_insufficient (st : List Meal) (r : ℚ) (h : st.length < 2) :
    battle st r =
      (.error "Two combatants must be prepped for a battle.", st, []) := by
  cases st with
  | nil => rfl
  | cons a t =>
    cases t with
    | nil => rfl
    | cons b t' =>
      simp only [List.length_cons] at h
      omega

/-- Witness for C4 at a one-element stage. -/
theorem battle_insufficient_witness :
    battle [sample_meal1] (1/10) =
      (.error "Two combatants must be prepped for a battle.",
        [sample_meal1], []) :=
  battle_insufficient [sample_meal1] (1/10) (by decide)

/-- C5: staging a third combatant fails with the capacity `ValueError`
and leaves the stage exactly at its prior two elements in their prior
order; with fewer than two staged, `prep_combatant` appends the record
and returns nothing. -/
theorem prep_combatant_spec (st : List Meal) (m : Meal) :
    (st.length = 2 →
      prep_combatant st m =
        (.error "Combatant list is full, cannot add more combatants.", st)) ∧
    (st.length < 2 → prep_combatant st m = (.ok (), st ++ [m])) := by
  constructor
  · intro h
    unfold prep_combatant
    rw [if_pos (by omega)]
  · intro h
    unfold prep_combatant
    rw [if_neg (by omega)]

/-- Witness for C5 at a full and at a one-element stage. -/
theorem prep_combatant_spec_witness :
    prep_combatant [sample_meal1, sample_meal2] sample_meal3 =
      (.error "Combatant list is full, cannot add more combatants.",
        [sample_meal1, sample_meal2]) ∧
    prep_combatant [sample_meal1] sample_meal2 =
      (.ok (), [sample_meal1, sample_meal2]) :=
  ⟨(prep_combatant_spec [sample_meal1, sample_meal2] sample_meal3).1 rfl,
    (prep_combatant_spec [sample_meal1] sample_meal2).2 (by decide)⟩

/-- C6: every stage state reachable from the initial empty stage
through `prep_combatant`, `battle` and `clear_combatants` holds at most
two combatants. -/
theorem stage_capacity (st : List Meal) (h : Reachable st) :
    st.length ≤ 2 := by
  induction h with
  | init => simp
  | prep st' m h ih =>
    unfold prep_combatant
    by_cases hc : 2 ≤ st'.length
    · rw [if_pos hc]
      exact ih
    · rw [if_neg hc]
      simp only [List.length_append, List.length_cons, List.length_nil]
      omega
  | fight st' r h ih =>
    cases st' with
    | nil => exact ih
    | cons a t =>
      cases t with
      | nil => exact ih
      | cons b t' =>
        show ((a :: b :: t').erase (battle_winner a b r).2).length ≤ 2
        exact le_trans (List.erase_sublist _ _).length_le ih
  | clear st' h ih => simp [clear_combatants]

/-- Witness for C6 at the reachable one-element stage. -/
theorem stage_capacity_witness : ([sample_meal1] : List Meal).length ≤ 2 :=
  stage_capacity [sample_meal1]
    (by
      have h := Reachable.prep [] sample_meal1 Reachable.init
      simpa [prep_combatant] using h)

/-- C7: the concrete scenario of the tests: record A (price 20,
7-character label, HIGH tier) scores 139, record B (price 15,
7-character label, LOW tier) scores 102, delta is 0.37; with injected
draw `r = 0.1` the higher-scoring A wins, and with `r = 0.9` the
lower-scoring B wins. -/
theorem battle_concrete_scenario :
    get_battle_score sample_meal1 = 139 ∧
    get_battle_score sample_meal2 = 102 ∧
    |get_battle_score sample_meal1 - get_battle_score sample_meal2| / 100 =
      37 / 100 ∧
    (battle [sample_meal1, sample_meal2] (1/10)).1 = .ok "Meal 1" ∧
    (battle [sample_meal1, sample_meal2] (1/10)).2.1 = [sample_meal1] ∧
    (battle [sample_meal1, sample_meal2] (9/10)).1 = .ok "Meal 2" ∧
    (battle [sample_meal1, sample_meal2] (9/10)).2.1 = [sample_meal2] := by
  have h1 : ("Italian".length) = 7 := rfl
  have h2 : ("Mexican".length) = 7 := rfl
  have e1 : get_battle_score sample_meal1 = 139 := by
    simp [get_battle_score, sample_meal1, tier_penalty, h1]
    norm_num
  have e2 : get_battle_score sample_meal2 = 102 := by
    simp [get_battle_score, sample_meal2, tier_penalty, h2]
    norm_num
  have edelta :
      |get_battle_score sample_meal1 - get_battle_score sample_meal2| / 100 =
        37 / 100 := by
    rw [e1, e2]
    norm_num
  have hw1 : battle_winner sample_meal1 sample_meal2 (1/10) =
      (sample_meal1, sample_meal2) := by
    unfold battle_winner
    rw [if_pos (by rw [edelta]; norm_num), if_neg (by rw [e1, e2]; norm_num)]
  have hw2 : battle_winner sample_meal1 sample_meal2 (9/10) =
      (sample_meal2, sample_meal1) := by
    unfold battle_winner
    rw [if_neg (by rw [edelta]; norm_num), if_neg (by rw [e1, e2]; norm_num)]
  refine ⟨e1, e2, edelta, ?_, ?_, ?_, ?_⟩
  · show (Except.ok (battle_winner sample_meal1 sample_meal2 (1/10)).1.meal :
        Except String String) = .ok "Meal 1"
    rw [hw1]
    rfl
  · show ([sample_meal1, sample_meal2].erase
        (battle_winner sample_meal1 sample_meal2 (1/10)).2) = [sample_meal1]
    rw [hw1]
    exact erase_pair_snd sample_meal1 sample_meal2
  · show (Except.ok (battle_winner sample_meal1 sample_meal2 (9/10)).1.meal :
        Except String String) = .ok "Meal 2"
    rw [hw2]
    rfl
  · show ([sample_meal1, sample_meal2].erase
        (battle_winner sample_meal1 sample_meal2 (9/10)).2) = [sample_meal2]
    rw [hw2]
    exact erase_pair_fst sample_meal1 sample_meal2

/-- C8: for every prior stage state, `clear_combatants` succeeds
unconditionally and a subsequent `get_combatants` returns the empty
sequence. -/
theorem clear_combatants_spec (st : List Meal) :
    get_combatants (clear_combatants st) = [] := rfl

/-- C9: for every key with no existing, non-deleted record and either
outcome `"win"` or `"loss"`, `update_meal_stats` fails with the
not-found or has-been-deleted `ValueError` and leaves the record store
unchanged. -/
theorem update_meal_stats_not_found (db : List MealRow) (meal_id : Int)
    (outcome : String) (_hout : outcome = "win" ∨ outcome = "loss")
    (h : ∀ row ∈ db, row.id = meal_id → row.deleted = true) :
    (update_meal_stats db meal_id outcome).2 = db ∧
    ((update_meal_stats db meal_id outcome).1 =
        .error ("Meal with ID " ++ toString meal_id ++ " not found") ∨
      (update_meal_stats db meal_id outcome).1 =
        .error ("Meal with ID " ++ toString meal_id ++ " has been deleted")) := by
  rcases hf : db.find? (fun row => row.id == meal_id) with _ | row
  · simp [update_meal_stats, hf]
  · have hmem : row ∈ db := List.mem_of_find?_eq_some hf
    have hid : row.id = meal_id := by simpa using List.find?_some hf
    have hdel : row.deleted = true := h row hmem hid
    simp [update_meal_stats, hf, hdel]

/-- Witness for C9 at a store holding one soft-deleted row. -/
theorem update_meal_stats_not_found_witness :
    (update_meal_stats [deleted_row] 1 "win").2 = [deleted_row] ∧
    ((update_meal_stats [deleted_row] 1 "win").1 =
        .error ("Meal with ID " ++ toString (1 : Int) ++ " not found") ∨
      (update_meal_stats [deleted_row] 1 "win").1 =
        .error ("Meal with ID " ++ toString (1 : Int) ++ " has been deleted")) :=
  update_meal_stats_not_found [deleted_row] 1 "win" (Or.inl rfl)
    (by
      intro row hr _
      rcases List.mem_singleton.mp hr with rfl
      rfl)

/-- C10: for every existing, non-deleted record key, outcome `"win"`
increments the record's battles and wins counters by 1, while outcome
`"loss"` increments only the battles counter by 1 (its wins counter is
unchanged, so a loss is observable only as battles minus wins); all
other rows are unchanged. -/
theorem update_meal_stats_existing (db : List MealRow) (meal_id : Int)
    (row : MealRow) (hf : db.find? (fun r => r.id == meal_id) = some row)
    (hdel : row.deleted = false) :
    update_meal_stats db meal_id "win" =
      (.ok (), db.map (fun r =>
        if r.id = meal_id then
          { r with battles := r.battles + 1, wins := r.wins + 1 }
        else r)) ∧
    update_meal_stats db meal_id "loss" =
      (.ok (), db.map (fun r =>
        if r.id = meal_id then { r with battles := r.battles + 1 }
        else r)) := by
  constructor <;> simp [update_meal_stats, hf, hdel]

/-- Witness for C10 at a store holding one live row with 5 battles and
2 wins. -/
theorem update_meal_stats_existing_witness :
    update_meal_stats [live_row] 1 "win" =
      (.ok (), [live_row].map (fun r =>
        if r.id = 1 then
          { r with battles := r.battles + 1, wins := r.wins + 1 }
        else r)) ∧
    update_meal_stats [live_row] 1 "loss" =
      (.ok (), [live_row].map (fun r =>
        if r.id = 1 then { r with battles := r.battles + 1 }
        else r)) :=
  update_meal_stats_existing [live_row] 1 live_row rfl rfl

end MealMax
